import Mathlib

/-!
Terminal Pulse — shallow embedding of the session/access and record-store core.

This file embeds the access-control/session layer (`src/terminal-pulse/src/App.tsx`,
the `AuthContext` part) and the LocalStorage record-store service
(`src/unnamed/part_000`, class `LocalStorageService`) of the Terminal Pulse
dashboard, and proves the frozen claims about them.

Modelling conventions:
- TypeScript string-union types (roles, statuses, priorities, …) are embedded as
  `String`, matching the string comparisons performed by the code.
- `Date` timestamps are embedded as `Nat` (milliseconds); nullable dates as
  `Option Nat`. No claim depends on date arithmetic.
- TypeScript `number` fields that hold fractional values (uptime percentages,
  coordinates, metric averages) are embedded as `Int`; no claim performs
  arithmetic on them, they only ride along for frame properties.
- Optional (`?:`) fields are embedded as `Option _`.
- The browser `localStorage` content, after `initializeData` of the service has
  run, is embedded as a `Storage` record holding the deserialized collections
  plus the current-user singleton slot. The `try/catch` in `setItem` (which logs and
  swallows serialization failures) is embedded by threading a Boolean `ok`
  through every mutating operation: when `ok = false` the backing slot keeps
  its old value and no error propagates, exactly as the caught exception.
-/

namespace TerminalPulse

/-- Embedding of `interface User` from the types module (`src/unnamed/part_004`). -/
structure User where
  id : String
  fullName : String
  username : String
  email : String
  password : String
  role : String
  status : String
  failedLoginAttempts : Nat
  lastLogin : Option Nat
  createdAt : Nat
  updatedAt : Nat
  assignedTerminals : Option (List String)
  permissions : Option (List String)
deriving DecidableEq, Repr, Inhabited

/-- The `coordinates` object of `interface Terminal`. -/
structure Coordinates where
  lat : Int
  lng : Int
deriving DecidableEq, Repr, Inhabited

/-- Embedding of `interface Terminal` from the types module. -/
structure Terminal where
  id : String
  location : String
  merchant : String
  status : String
  lastSeen : Nat
  coordinates : Coordinates
  model : Option String
  serialNumber : Option String
  firmwareVersion : Option String
  networkType : Option String
  uptime : Int
  transactionsToday : Nat
  lastTransaction : Option Nat
  lastMaintenance : Option Nat
  nextMaintenance : Option Nat
  createdAt : Nat
  updatedAt : Nat
deriving DecidableEq, Repr, Inhabited

/-- Embedding of `interface SupportTicket` from the types module. -/
structure SupportTicket where
  id : String
  title : String
  description : String
  terminalId : String
  priority : String
  status : String
  source : String
  reportedBy : String
  assignedTo : Option String
  createdAt : Nat
  updatedAt : Nat
  resolvedAt : Option Nat
  slaTarget : Nat
  slaBreach : Bool
  slaBreachDuration : Int
  resolution : Option String
  resolutionTime : Option Int
  satisfactionRating : Option Int
  feedback : Option String
deriving DecidableEq, Repr, Inhabited

/-- Embedding of `interface SystemAlert` from the types module. -/
structure SystemAlert where
  id : String
  type : String
  message : String
  severity : String
  terminalId : Option String
  ticketId : Option String
  acknowledged : Bool
  acknowledgedBy : Option String
  createdAt : Nat
  acknowledgedAt : Option Nat
deriving DecidableEq, Repr, Inhabited

/-- Embedding of `interface PerformanceMetrics` from the types module. -/
structure PerformanceMetrics where
  date : String
  totalTerminals : Nat
  onlineTerminals : Nat
  offlineTerminals : Nat
  maintenanceTerminals : Nat
  errorTerminals : Nat
  averageUptime : Int
  totalTickets : Nat
  openTickets : Nat
  resolvedTickets : Nat
  averageResolutionTime : Int
  slaCompliance : Int
  customerSatisfaction : Int
deriving DecidableEq, Repr, Inhabited

/-- The deserialized contents of the browser `localStorage` under the storage
keys of the service, after `initializeData` has seeded absent collections: one slot per
collection plus the current-user singleton (`STORAGE_KEYS.CURRENT_USER`).
`getItem(k) || []` on an absent collection is the empty list. -/
structure Storage where
  users : List User
  terminals : List Terminal
  tickets : List SupportTicket
  alerts : List SystemAlert
  metrics : List PerformanceMetrics
  currentUser : Option User
deriving DecidableEq, Repr, Inhabited

/-- Embedding of `private setItem<T>(key, data)`: `localStorage.setItem(key, JSON.stringify(data))`
inside `try/catch`; on failure the error is logged (`console.error`) and
swallowed, so the stored slot keeps its previous value `old`. The Boolean `ok`
says whether serialization/storage succeeded. -/
def setItem {α : Type} (ok : Bool) (old new : α) : α :=
  if ok then new else old

/-- JavaScript `Array.prototype.findIndex`, embedded with `none` for `-1`. -/
def findIndex {α : Type} (p : α → Bool) : List α → Option Nat
  | [] => none
  | a :: l => if p a then some 0 else (findIndex p l).map (· + 1)

/-! ## Partial updates

`Partial<T>` arguments of the update operations: every field optional, `none`
meaning "absent from the updates object". The merge
`{ ...old, ...updates, updatedAt: new Date() }` takes each present field from
`updates`, the rest from `old`, and always overwrites `updatedAt` with the
current time (so a `updatedAt` member of `updates` can never survive the
spread; it is therefore not represented). -/

/-- Embedding of `Partial<User>` (minus `updatedAt`, which the merge always overwrites). -/
structure PartialUser where
  id : Option String := none
  fullName : Option String := none
  username : Option String := none
  email : Option String := none
  password : Option String := none
  role : Option String := none
  status : Option String := none
  failedLoginAttempts : Option Nat := none
  lastLogin : Option (Option Nat) := none
  createdAt : Option Nat := none
  assignedTerminals : Option (Option (List String)) := none
  permissions : Option (Option (List String)) := none
deriving DecidableEq, Repr, Inhabited

/-- Spread merge `\x7b ...u, ...p, updatedAt: new Date() \x7d` for users. -/
def applyUserUpdates (u : User) (p : PartialUser) (now : Nat) : User where
  id := p.id.getD u.id
  fullName := p.fullName.getD u.fullName
  username := p.username.getD u.username
  email := p.email.getD u.email
  password := p.password.getD u.password
  role := p.role.getD u.role
  status := p.status.getD u.status
  failedLoginAttempts := p.failedLoginAttempts.getD u.failedLoginAttempts
  lastLogin := p.lastLogin.getD u.lastLogin
  createdAt := p.createdAt.getD u.createdAt
  updatedAt := now
  assignedTerminals := p.assignedTerminals.getD u.assignedTerminals
  permissions := p.permissions.getD u.permissions

/-- Embedding of `Partial<Terminal>` (minus `updatedAt`). -/
structure PartialTerminal where
  id : Option String := none
  location : Option String := none
  merchant : Option String := none
  status : Option String := none
  lastSeen : Option Nat := none
  coordinates : Option Coordinates := none
  model : Option (Option String) := none
  serialNumber : Option (Option String) := none
  firmwareVersion : Option (Option String) := none
  networkType : Option (Option String) := none
  uptime : Option Int := none
  transactionsToday : Option Nat := none
  lastTransaction : Option (Option Nat) := none
  lastMaintenance : Option (Option Nat) := none
  nextMaintenance : Option (Option Nat) := none
  createdAt : Option Nat := none
deriving DecidableEq, Repr, Inhabited

/-- Spread merge `\x7b ...t, ...p, updatedAt: new Date() \x7d` for terminals. -/
def applyTerminalUpdates (t : Terminal) (p : PartialTerminal) (now : Nat) : Terminal where
  id := p.id.getD t.id
  location := p.location.getD t.location
  merchant := p.merchant.getD t.merchant
  status := p.status.getD t.status
  lastSeen := p.lastSeen.getD t.lastSeen
  coordinates := p.coordinates.getD t.coordinates
  model := p.model.getD t.model
  serialNumber := p.serialNumber.getD t.serialNumber
  firmwareVersion := p.firmwareVersion.getD t.firmwareVersion
  networkType := p.networkType.getD t.networkType
  uptime := p.uptime.getD t.uptime
  transactionsToday := p.transactionsToday.getD t.transactionsToday
  lastTransaction := p.lastTransaction.getD t.lastTransaction
  lastMaintenance := p.lastMaintenance.getD t.lastMaintenance
  nextMaintenance := p.nextMaintenance.getD t.nextMaintenance
  createdAt := p.createdAt.getD t.createdAt
  updatedAt := now

/-- Embedding of `Partial<SupportTicket>` (minus `updatedAt`). -/
structure PartialTicket where
  id : Option String := none
  title : Option String := none
  description : Option String := none
  terminalId : Option String := none
  priority : Option String := none
  status : Option String := none
  source : Option String := none
  reportedBy : Option String := none
  assignedTo : Option (Option String) := none
  createdAt : Option Nat := none
  resolvedAt : Option (Option Nat) := none
  slaTarget : Option Nat := none
  slaBreach : Option Bool := none
  slaBreachDuration : Option Int := none
  resolution : Option (Option String) := none
  resolutionTime : Option (Option Int) := none
  satisfactionRating : Option (Option Int) := none
  feedback : Option (Option String) := none
deriving DecidableEq, Repr, Inhabited

/-- Spread merge `\x7b ...t, ...p, updatedAt: new Date() \x7d` for tickets. -/
def applyTicketUpdates (t : SupportTicket) (p : PartialTicket) (now : Nat) : SupportTicket where
  id := p.id.getD t.id
  title := p.title.getD t.title
  description := p.description.getD t.description
  terminalId := p.terminalId.getD t.terminalId
  priority := p.priority.getD t.priority
  status := p.status.getD t.status
  source := p.source.getD t.source
  reportedBy := p.reportedBy.getD t.reportedBy
  assignedTo := p.assignedTo.getD t.assignedTo
  createdAt := p.createdAt.getD t.createdAt
  updatedAt := now
  resolvedAt := p.resolvedAt.getD t.resolvedAt
  slaTarget := p.slaTarget.getD t.slaTarget
  slaBreach := p.slaBreach.getD t.slaBreach
  slaBreachDuration := p.slaBreachDuration.getD t.slaBreachDuration
  resolution := p.resolution.getD t.resolution
  resolutionTime := p.resolutionTime.getD t.resolutionTime
  satisfactionRating := p.satisfactionRating.getD t.satisfactionRating
  feedback := p.feedback.getD t.feedback

/-! ## LocalStorageService operations (`src/unnamed/part_000`)

Each mutating operation takes the persistence-success flag `ok` for its
`setItem` call and returns the pair (value returned to the caller, storage
after the call). -/

/-- Operation `getUsers(): User[]` — `getItem(USERS) || []`. -/
def getUsers (s : Storage) : List User :=
  s.users

/-- Operation `getUserById(id)`: linear scan by `user.id === id`. -/
def getUserById (s : Storage) (id : String) : Option User :=
  (getUsers s).find? (fun user => user.id == id)

/-- Operation `getUserByUsername(username)`: linear scan by `user.username === username`. -/
def getUserByUsername (s : Storage) (username : String) : Option User :=
  (getUsers s).find? (fun user => user.username == username)

/-- Embedding of `Omit<User, ...>` (no id and no timestamps), the argument of `createUser`. -/
structure NewUserData where
  fullName : String
  username : String
  email : String
  password : String
  role : String
  status : String
  failedLoginAttempts : Nat
  lastLogin : Option Nat
  assignedTerminals : Option (List String)
  permissions : Option (List String)
deriving DecidableEq, Repr, Inhabited

/-- Operation `createUser(userData)`: builds a user with a fresh id
`` `user-${Date.now()}-${random suffix}` `` and both timestamps set to now,
appends it and persists. `rand` stands for the random suffix. -/
def createUser (s : Storage) (ok : Bool) (userData : NewUserData) (now : Nat)
    (rand : String) : User × Storage :=
  let newUser : User :=
    { id := "user-" ++ toString now ++ "-" ++ rand
      fullName := userData.fullName
      username := userData.username
      email := userData.email
      password := userData.password
      role := userData.role
      status := userData.status
      failedLoginAttempts := userData.failedLoginAttempts
      lastLogin := userData.lastLogin
      createdAt := now
      updatedAt := now
      assignedTerminals := userData.assignedTerminals
      permissions := userData.permissions }
  (newUser, { s with users := setItem ok s.users (getUsers s ++ [newUser]) })

/-- Operation `updateUser(id, updates)`: find by id (`-1` ↦ `none`), shallow-merge with a
fresh `updatedAt`, persist, return the merged record. -/
def updateUser (s : Storage) (ok : Bool) (id : String) (updates : PartialUser)
    (now : Nat) : Option User × Storage :=
  let users := getUsers s
  match findIndex (fun user => user.id == id) users with
  | none => (none, s)
  | some index =>
    let merged := applyUserUpdates (users.getD index default) updates now
    (some merged, { s with users := setItem ok s.users (users.set index merged) })

/-- Operation `deleteUser(id)`: filter out the id; `false` (and no write) when nothing
was removed. -/
def deleteUser (s : Storage) (ok : Bool) (id : String) : Bool × Storage :=
  let users := getUsers s
  let filteredUsers := users.filter (fun user => !(user.id == id))
  if filteredUsers.length == users.length then (false, s)
  else (true, { s with users := setItem ok s.users filteredUsers })

/-- Operation `getCurrentUser()`: reads the `CURRENT_USER` singleton slot. -/
def getCurrentUser (s : Storage) : Option User :=
  s.currentUser

/-- Operation `setCurrentUser(user)`: writes the singleton slot, or removes it for
`null`; both `setItem` and `removeItem` swallow failures, so on failure the
slot is unchanged. -/
def setCurrentUser (s : Storage) (ok : Bool) (user : Option User) : Unit × Storage :=
  match user with
  | some u => ((), { s with currentUser := setItem ok s.currentUser (some u) })
  | none => ((), { s with currentUser := setItem ok s.currentUser none })

/-- Operation `getTerminals(): Terminal[]` — `getItem(TERMINALS) || []`. -/
def getTerminals (s : Storage) : List Terminal :=
  s.terminals

/-- Operation `getTerminalById(id)`: linear scan by `terminal.id === id`. -/
def getTerminalById (s : Storage) (id : String) : Option Terminal :=
  (getTerminals s).find? (fun terminal => terminal.id == id)

/-- Operation `getTerminalsByUser(userId)`: all terminals unless the user exists and is a
Merchant, in which case only terminals whose id occurs in the
`assignedTerminals` of the user (`assignedTerminals?.includes(...)`: an absent list keeps
nothing). -/
def getTerminalsByUser (s : Storage) (userId : String) : List Terminal :=
  match getUserById s userId with
  | none => getTerminals s
  | some user =>
    if user.role != "Merchant" then getTerminals s
    else (getTerminals s).filter (fun terminal =>
      (user.assignedTerminals.getD []).contains terminal.id)

/-- Operation `updateTerminal(id, updates)`: same pattern as `updateUser`. -/
def updateTerminal (s : Storage) (ok : Bool) (id : String)
    (updates : PartialTerminal) (now : Nat) : Option Terminal × Storage :=
  let terminals := getTerminals s
  match findIndex (fun terminal => terminal.id == id) terminals with
  | none => (none, s)
  | some index =>
    let merged := applyTerminalUpdates (terminals.getD index default) updates now
    (some merged,
      { s with terminals := setItem ok s.terminals (terminals.set index merged) })

/-- Operation `updateTerminalStatus(id, status)`: delegates to `updateTerminal` with a
fresh `lastSeen`; `true` iff the terminal was found. -/
def updateTerminalStatus (s : Storage) (ok : Bool) (id : String) (status : String)
    (now : Nat) : Bool × Storage :=
  let r := updateTerminal s ok id { status := some status, lastSeen := some now } now
  (r.1 != none, r.2)

/-- Operation `getTickets(): SupportTicket[]` — `getItem(TICKETS) || []`. -/
def getTickets (s : Storage) : List SupportTicket :=
  s.tickets

/-- Operation `getTicketsByUser(userId)`: empty when the user id is unknown; for a
Merchant, tickets whose `terminalId` occurs in `assignedTerminals || []`;
otherwise all tickets. -/
def getTicketsByUser (s : Storage) (userId : String) : List SupportTicket :=
  match getUserById s userId with
  | none => []
  | some user =>
    if user.role == "Merchant" then
      let userTerminals := user.assignedTerminals.getD []
      (getTickets s).filter (fun ticket => userTerminals.contains ticket.terminalId)
    else getTickets s

/-- Embedding of `Omit<SupportTicket, ...>` (no id and no timestamps), the argument
of `createTicket`. -/
structure NewTicketData where
  title : String
  description : String
  terminalId : String
  priority : String
  status : String
  source : String
  reportedBy : String
  assignedTo : Option String
  resolvedAt : Option Nat
  slaTarget : Nat
  slaBreach : Bool
  slaBreachDuration : Int
  resolution : Option String
  resolutionTime : Option Int
  satisfactionRating : Option Int
  feedback : Option String
deriving DecidableEq, Repr, Inhabited

/-- Operation `createTicket(ticketData)`: fresh id from time and suffix,
both timestamps now, append, persist, return. -/
def createTicket (s : Storage) (ok : Bool) (ticketData : NewTicketData) (now : Nat)
    (rand : String) : SupportTicket × Storage :=
  let newTicket : SupportTicket :=
    { id := "TKT-" ++ toString now ++ "-" ++ rand
      title := ticketData.title
      description := ticketData.description
      terminalId := ticketData.terminalId
      priority := ticketData.priority
      status := ticketData.status
      source := ticketData.source
      reportedBy := ticketData.reportedBy
      assignedTo := ticketData.assignedTo
      createdAt := now
      updatedAt := now
      resolvedAt := ticketData.resolvedAt
      slaTarget := ticketData.slaTarget
      slaBreach := ticketData.slaBreach
      slaBreachDuration := ticketData.slaBreachDuration
      resolution := ticketData.resolution
      resolutionTime := ticketData.resolutionTime
      satisfactionRating := ticketData.satisfactionRating
      feedback := ticketData.feedback }
  (newTicket, { s with tickets := setItem ok s.tickets (getTickets s ++ [newTicket]) })

/-- Operation `updateTicket(id, updates)`: same pattern as `updateUser`. -/
def updateTicket (s : Storage) (ok : Bool) (id : String) (updates : PartialTicket)
    (now : Nat) : Option SupportTicket × Storage :=
  let tickets := getTickets s
  match findIndex (fun ticket => ticket.id == id) tickets with
  | none => (none, s)
  | some index =>
    let merged := applyTicketUpdates (tickets.getD index default) updates now
    (some merged, { s with tickets := setItem ok s.tickets (tickets.set index merged) })

/-- Operation `getAlerts(): SystemAlert[]` — `getItem(ALERTS) || []`. -/
def getAlerts (s : Storage) : List SystemAlert :=
  s.alerts

/-- Embedding of `Omit<SystemAlert, ...>` (no id, no creation time), the argument of `createAlert`. -/
structure NewAlertData where
  type : String
  message : String
  severity : String
  terminalId : Option String
  ticketId : Option String
  acknowledged : Bool
  acknowledgedBy : Option String
  acknowledgedAt : Option Nat
deriving DecidableEq, Repr, Inhabited

/-- Operation `createAlert(alertData)`: fresh id from time and suffix,
`createdAt` now, append, persist, return. -/
def createAlert (s : Storage) (ok : Bool) (alertData : NewAlertData) (now : Nat)
    (rand : String) : SystemAlert × Storage :=
  let newAlert : SystemAlert :=
    { id := "alert-" ++ toString now ++ "-" ++ rand
      type := alertData.type
      message := alertData.message
      severity := alertData.severity
      terminalId := alertData.terminalId
      ticketId := alertData.ticketId
      acknowledged := alertData.acknowledged
      acknowledgedBy := alertData.acknowledgedBy
      createdAt := now
      acknowledgedAt := alertData.acknowledgedAt }
  (newAlert, { s with alerts := setItem ok s.alerts (getAlerts s ++ [newAlert]) })

/-- Operation `getMetrics(): PerformanceMetrics[]` — `getItem(METRICS) || []`. -/
def getMetrics (s : Storage) : List PerformanceMetrics :=
  s.metrics

/-! ## Storage keys

`private readonly STORAGE_KEYS` of `LocalStorageService`, and the footprint of
`getItem` / `setItem` / `removeItem` calls over the whole service, transcribed
call site by call site. -/

/-- The `STORAGE_KEYS` record of `LocalStorageService`. -/
structure StorageKeysT where
  USERS : String
  TERMINALS : String
  TICKETS : String
  COMMENTS : String
  ALERTS : String
  METRICS : String
  CURRENT_USER : String
deriving DecidableEq, Repr

/-- The literal `STORAGE_KEYS` value. -/
def STORAGE_KEYS : StorageKeysT where
  USERS := "terminal_pulse_users"
  TERMINALS := "terminal_pulse_terminals"
  TICKETS := "terminal_pulse_tickets"
  COMMENTS := "terminal_pulse_comments"
  ALERTS := "terminal_pulse_alerts"
  METRICS := "terminal_pulse_metrics"
  CURRENT_USER := "terminal_pulse_current_user"

/-- Value list `Object.values(this.STORAGE_KEYS)`, in declaration order (the list
`clearAllData` iterates over with `removeItem`). -/
def storageKeyValues : List String :=
  [STORAGE_KEYS.USERS, STORAGE_KEYS.TERMINALS, STORAGE_KEYS.TICKETS,
   STORAGE_KEYS.COMMENTS, STORAGE_KEYS.ALERTS, STORAGE_KEYS.METRICS,
   STORAGE_KEYS.CURRENT_USER]

/-- Every key the service ever passes to `getItem`, deduplicated: USERS
(`initializeData`, `getUsers`), TERMINALS (`initializeData`, `getTerminals`),
TICKETS (`initializeData`, `getTickets`), ALERTS (`initializeData`,
`getAlerts`), METRICS (`initializeData`, `getMetrics`), CURRENT_USER
(`getCurrentUser`). No other call site of `getItem` exists. -/
def keysReadByStore : List String :=
  [STORAGE_KEYS.USERS, STORAGE_KEYS.TERMINALS, STORAGE_KEYS.TICKETS,
   STORAGE_KEYS.ALERTS, STORAGE_KEYS.METRICS, STORAGE_KEYS.CURRENT_USER]

/-- Every key the service ever passes to `setItem`, deduplicated: USERS
(`initializeData`, `createUser`, `updateUser`, `deleteUser`), TERMINALS
(`initializeData`, `updateTerminal`), TICKETS (`initializeData`,
`createTicket`, `updateTicket`), ALERTS (`initializeData`, `createAlert`),
METRICS (`initializeData`), CURRENT_USER (`setCurrentUser`). No other call
site of `setItem` exists. -/
def keysWrittenByStore : List String :=
  [STORAGE_KEYS.USERS, STORAGE_KEYS.TERMINALS, STORAGE_KEYS.TICKETS,
   STORAGE_KEYS.ALERTS, STORAGE_KEYS.METRICS, STORAGE_KEYS.CURRENT_USER]

/-- Every key the service ever passes to `removeItem`: CURRENT_USER
(`setCurrentUser(null)`) and all of `Object.values(STORAGE_KEYS)` — the
COMMENTS key included — in `clearAllData`. -/
def keysRemovedByStore : List String :=
  STORAGE_KEYS.CURRENT_USER :: storageKeyValues

/-- Modelled from the spec (§6 «Persisted state layout: six logical keys (one
per collection, plus one for the current-session singleton)»): the six keys
the spec says make up the persisted layout, to be compared with the key
footprint transcribed from the source. -/
def specPersistedKeys : List String :=
  ["terminal_pulse_users", "terminal_pulse_terminals", "terminal_pulse_tickets",
   "terminal_pulse_alerts", "terminal_pulse_metrics",
   "terminal_pulse_current_user"]

/-! ## Session / access component (`AuthContext` in `src/terminal-pulse/src/App.tsx`) -/

/-- The static `ROLE_PERMISSIONS: Record<string, string[]>` table; lookup of a
role not among the four keys yields `undefined`, which `hasPermission` turns
into `[]` with `|| []`. -/
def ROLE_PERMISSIONS (role : String) : List String :=
  if role == "Administrator" then
    ["view_all_terminals", "manage_terminals", "view_all_tickets",
     "manage_tickets", "view_analytics", "generate_reports", "manage_users",
     "system_admin"]
  else if role == "Service Desk Manager" then
    ["view_all_terminals", "view_all_tickets", "manage_tickets",
     "view_analytics", "generate_reports", "manage_users"]
  else if role == "Support Agent" then
    ["view_all_terminals", "manage_terminals", "view_all_tickets",
     "manage_tickets", "view_analytics", "generate_reports"]
  else if role == "Merchant" then
    ["view_own_terminals", "view_own_tickets", "create_tickets",
     "view_own_analytics"]
  else []

/-- The observable outcome of one `login` call: the returned Boolean, the
error message carried by the `LOGIN_FAILURE` dispatch (if any), the storage
after the mutations of the call, and the in-memory `state.currentUser` after the
final dispatch (`LOGIN_FAILURE` resets it to `null`, `LOGIN_SUCCESS` sets it
to the payload). -/
structure LoginResult where
  success : Bool
  errorMsg : Option String
  store : Storage
  session : Option User
deriving DecidableEq, Repr

/-- Operation `login(username, password)` of the `AuthProvider`, with its four ordered
checks: unknown user; locked account; wrong password (increment the counter,
lock at 3); correct password (reset counter, refresh `lastLogin`, persist the
session). `now` is the `new Date()` of the call; persistence succeeds (`ok = true`)
on this path. -/
def login (s : Storage) (username password : String) (now : Nat) : LoginResult :=
  match getUserByUsername s username with
  | none => ⟨false, some "User not found", s, none⟩
  | some user =>
    if user.status == "Locked" then
      ⟨false, some "Account is locked. Contact administrator.", s, none⟩
    else if user.password != password then
      let r1 := updateUser s true user.id
        { failedLoginAttempts := some (user.failedLoginAttempts + 1) } now
      match r1.1 with
      | some updatedUser =>
        if updatedUser.failedLoginAttempts ≥ 3 then
          let r2 := updateUser r1.2 true user.id { status := some "Locked" } now
          ⟨false, some "Account locked due to multiple failed login attempts.",
            r2.2, none⟩
        else ⟨false, some "Invalid password", r1.2, none⟩
      | none => ⟨false, some "Invalid password", r1.2, none⟩
    else
      let r := updateUser s true user.id
        { lastLogin := some (some now), failedLoginAttempts := some 0 } now
      match r.1 with
      | some updatedUser =>
        ⟨true, none, (setCurrentUser r.2 true (some updatedUser)).2,
          some updatedUser⟩
      | none => ⟨false, some "Login failed", r.2, none⟩

/-- Operation `logout()`: clears the persisted session slot and dispatches `LOGOUT`
(in-memory current user becomes `null`). -/
def logout (s : Storage) : Storage × Option User :=
  ((setCurrentUser s true none).2, none)

/-- Operation `hasPermission(permission)`: `false` without a current user, otherwise
membership in `ROLE_PERMISSIONS[role] || []`. `session` is the in-memory
`state.currentUser`. -/
def hasPermission (session : Option User) (permission : String) : Bool :=
  match session with
  | none => false
  | some currentUser => (ROLE_PERMISSIONS currentUser.role).contains permission

/-- Operation `getAccessibleTerminals()`: `[]` without a current user; Merchant sessions
go through `getTerminalsByUser`; everyone else gets `getTerminals()`. -/
def getAccessibleTerminals (session : Option User) (s : Storage) : List Terminal :=
  match session with
  | none => []
  | some currentUser =>
    if currentUser.role == "Merchant" then getTerminalsByUser s currentUser.id
    else getTerminals s

/-- Operation `getAccessibleTickets()`: `[]` without a current user, otherwise
`getTicketsByUser(currentUser.id)`. -/
def getAccessibleTickets (session : Option User) (s : Storage) : List SupportTicket :=
  match session with
  | none => []
  | some currentUser => getTicketsByUser s currentUser.id

/-! ## Frame predicates and concrete fixtures -/


/-- All fields of a `User` other than `updatedAt` agree. -/
def userEqExceptUpdatedAt (a b : User) : Prop :=
  a.id = b.id ∧ a.fullName = b.fullName ∧ a.username = b.username ∧
  a.email = b.email ∧ a.password = b.password ∧ a.role = b.role ∧
  a.status = b.status ∧ a.failedLoginAttempts = b.failedLoginAttempts ∧
  a.lastLogin = b.lastLogin ∧ a.createdAt = b.createdAt ∧
  a.assignedTerminals = b.assignedTerminals ∧ a.permissions = b.permissions

/-- All fields of a `Terminal` other than `updatedAt` agree. -/
def terminalEqExceptUpdatedAt (a b : Terminal) : Prop :=
  a.id = b.id ∧ a.location = b.location ∧ a.merchant = b.merchant ∧
  a.status = b.status ∧ a.lastSeen = b.lastSeen ∧
  a.coordinates = b.coordinates ∧ a.model = b.model ∧
  a.serialNumber = b.serialNumber ∧ a.firmwareVersion = b.firmwareVersion ∧
  a.networkType = b.networkType ∧ a.uptime = b.uptime ∧
  a.transactionsToday = b.transactionsToday ∧
  a.lastTransaction = b.lastTransaction ∧
  a.lastMaintenance = b.lastMaintenance ∧
  a.nextMaintenance = b.nextMaintenance ∧ a.createdAt = b.createdAt

/-- All fields of a `SupportTicket` other than `updatedAt` agree. -/
def ticketEqExceptUpdatedAt (a b : SupportTicket) : Prop :=
  a.id = b.id ∧ a.title = b.title ∧ a.description = b.description ∧
  a.terminalId = b.terminalId ∧ a.priority = b.priority ∧
  a.status = b.status ∧ a.source = b.source ∧
  a.reportedBy = b.reportedBy ∧ a.assignedTo = b.assignedTo ∧
  a.createdAt = b.createdAt ∧ a.resolvedAt = b.resolvedAt ∧
  a.slaTarget = b.slaTarget ∧ a.slaBreach = b.slaBreach ∧
  a.slaBreachDuration = b.slaBreachDuration ∧ a.resolution = b.resolution ∧
  a.resolutionTime = b.resolutionTime ∧
  a.satisfactionRating = b.satisfactionRating ∧ a.feedback = b.feedback

/-! ## Concrete fixtures (modelled on the seeded sample data) -/

/-- The sample administrator (`generateSampleUsers`), timestamps simplified. -/
def wAdmin : User :=
  { id := "user-admin-001", fullName := "Tendai Mukamuri",
    username := "admin.mukamuri", email := "admin.mukamuri@stanbic.co.zw",
    password := "admin123", role := "Administrator", status := "Active",
    failedLoginAttempts := 0, lastLogin := none, createdAt := 0, updatedAt := 0,
    assignedTerminals := none, permissions := none }

/-- The sample support agent, here with two failed attempts on record. -/
def wSupport : User :=
  { id := "user-support-001", fullName := "Chipo Nhongo",
    username := "support.nhongo", email := "support.nhongo@stanbic.co.zw",
    password := "support123", role := "Support Agent", status := "Active",
    failedLoginAttempts := 2, lastLogin := none, createdAt := 0, updatedAt := 0,
    assignedTerminals := none, permissions := none }

/-- The sample merchant, assigned exactly terminal T001. -/
def wMerchant : User :=
  { id := "user-merchant-001", fullName := "Tafadzwa Mutasa",
    username := "merchant.mutasa", email := "merchant.mutasa@stanbic.co.zw",
    password := "merchant123", role := "Merchant", status := "Active",
    failedLoginAttempts := 0, lastLogin := none, createdAt := 0, updatedAt := 0,
    assignedTerminals := some ["T001"], permissions := none }

/-- A session user whose id matches no stored user (deleted after login). -/
def wGhost : User :=
  { wAdmin with id := "user-ghost-001", username := "ghost.user" }

/-- A sample terminal with the given id and location. -/
def wTerminal (i loc : String) : Terminal :=
  { id := i, location := loc, merchant := "Pick n Pay", status := "Online",
    lastSeen := 0, coordinates := { lat := -17, lng := 31 }, model := none,
    serialNumber := none, firmwareVersion := none, networkType := none,
    uptime := 100, transactionsToday := 45, lastTransaction := none,
    lastMaintenance := none, nextMaintenance := none, createdAt := 0,
    updatedAt := 0 }

/-- A sample ticket against the given terminal. -/
def wTicket (i tid : String) : SupportTicket :=
  { id := i, title := "Terminal Offline", description := "offline for 2 hours",
    terminalId := tid, priority := "High", status := "Open", source := "System",
    reportedBy := "user-admin-001", assignedTo := some "user-support-001",
    createdAt := 0, updatedAt := 0, resolvedAt := none, slaTarget := 0,
    slaBreach := true, slaBreachDuration := 259, resolution := none,
    resolutionTime := none, satisfactionRating := none, feedback := none }

/-- A store with three users, five terminals and two tickets, mirroring the
sample fixture shape. -/
def wStore : Storage :=
  { users := [wAdmin, wSupport, wMerchant],
    terminals := [wTerminal "T001" "Harare CBD", wTerminal "T002" "Bulawayo City",
                  wTerminal "T003" "Mutare Center", wTerminal "T004" "Gweru Main",
                  wTerminal "T005" "Masvingo Plaza"],
    tickets := [wTicket "TKT-2025-001" "T001", wTicket "TKT-2025-002" "T003"],
    alerts := [], metrics := [], currentUser := some wMerchant }

/-- A store holding users only: the terminals and tickets collections are
empty. -/
def wBareStore : Storage :=
  { users := [wAdmin, wSupport, wMerchant], terminals := [], tickets := [],
    alerts := [], metrics := [], currentUser := none }

/-! ## Helper lemmas -/


theorem find?_append_cons {α : Type} (p : α → Bool) (pre post : List α) (u : α)
    (hpre : ∀ x ∈ pre, p x = false) (hu : p u = true) :
    (pre ++ u :: post).find? p = some u := by
  induction pre with
  | nil => simp [List.find?_cons, hu]
  | cons a t ih =>
    have ha : p a = false := hpre a (by simp)
    simp only [List.cons_append, List.find?_cons, ha]
    exact ih (fun x hx => hpre x (by simp [hx]))

theorem findIndex_append_cons {α : Type} (p : α → Bool) (pre post : List α) (u : α)
    (hpre : ∀ x ∈ pre, p x = false) (hu : p u = true) :
    findIndex p (pre ++ u :: post) = some pre.length := by
  induction pre with
  | nil => simp [findIndex, hu]
  | cons a t ih =>
    have ha : p a = false := hpre a (by simp)
    simp [findIndex, ha, ih (fun x hx => hpre x (by simp [hx]))]

theorem set_append_cons {α : Type} (pre post : List α) (u v : α) :
    (pre ++ u :: post).set pre.length v = pre ++ v :: post := by
  induction pre with
  | nil => rfl
  | cons a t ih => simp [ih]

theorem getD_append_cons {α : Type} [Inhabited α] (pre post : List α) (u : α) :
    (pre ++ u :: post).getD pre.length default = u := by
  induction pre with
  | nil => rfl
  | cons a t ih =>
    show (t ++ u :: post).getD t.length default = u
    exact ih

theorem updateUser_found (s : Storage) (ok : Bool) (id : String)
    (pre post : List User) (u : User) (p : PartialUser) (now : Nat)
    (hs : s.users = pre ++ u :: post)
    (hid : u.id = id)
    (hpre : ∀ x ∈ pre, x.id ≠ id) :
    updateUser s ok id p now =
      (some (applyUserUpdates u p now),
       { s with users := setItem ok s.users (pre ++ applyUserUpdates u p now :: post) }) := by
  have hidx : findIndex (fun x => x.id == id) (getUsers s) = some pre.length := by
    unfold getUsers
    rw [hs]
    exact findIndex_append_cons _ _ _ _
      (fun x hx => by simpa using hpre x hx) (by simp [hid])
  unfold updateUser
  simp only []
  rw [hidx]
  simp only [getUsers, hs, getD_append_cons, set_append_cons]

theorem getUserByUsername_decomp (s : Storage) (uname : String)
    (pre post : List User) (u : User)
    (hs : s.users = pre ++ u :: post)
    (hname : u.username = uname)
    (hpre : ∀ x ∈ pre, x.username ≠ uname) :
    getUserByUsername s uname = some u := by
  unfold getUserByUsername getUsers
  rw [hs]
  exact find?_append_cons _ _ _ _
    (fun x hx => by simpa using hpre x hx) (by simp [hname])

theorem login_locked (s : Storage) (uname pw : String) (u : User) (now : Nat)
    (hfind : getUserByUsername s uname = some u)
    (hlocked : u.status = "Locked") :
    login s uname pw now =
      ⟨false, some "Account is locked. Contact administrator.", s, none⟩ := by
  unfold login
  rw [hfind]
  simp [hlocked]

theorem login_wrong_below_lock (s : Storage) (pre post : List User) (u : User)
    (uname pw : String) (now : Nat)
    (hs : s.users = pre ++ u :: post)
    (hname : u.username = uname)
    (hpreU : ∀ x ∈ pre, x.username ≠ uname)
    (hpreI : ∀ x ∈ pre, x.id ≠ u.id)
    (hnl : u.status ≠ "Locked")
    (hwrong : u.password ≠ pw)
    (hsmall : u.failedLoginAttempts + 1 < 3) :
    login s uname pw now =
      ⟨false, some "Invalid password",
       { s with users :=
          pre ++ { u with failedLoginAttempts := u.failedLoginAttempts + 1,
                          updatedAt := now } :: post },
       none⟩ := by
  have hfind := getUserByUsername_decomp s uname pre post u hs hname hpreU
  unfold login
  rw [hfind]
  dsimp only
  rw [if_neg (by simp [hnl]), if_pos (by simp [hwrong])]
  rw [updateUser_found s true u.id pre post u _ now hs rfl hpreI]
  dsimp only [applyUserUpdates, Option.getD, setItem]
  rw [if_neg (Nat.not_le.mpr hsmall)]
  simp

theorem login_wrong_locks (s : Storage) (pre post : List User) (u : User)
    (uname pw : String) (now : Nat)
    (hs : s.users = pre ++ u :: post)
    (hname : u.username = uname)
    (hpreU : ∀ x ∈ pre, x.username ≠ uname)
    (hpreI : ∀ x ∈ pre, x.id ≠ u.id)
    (hnl : u.status ≠ "Locked")
    (hwrong : u.password ≠ pw)
    (hbig : u.failedLoginAttempts + 1 ≥ 3) :
    login s uname pw now =
      ⟨false, some "Account locked due to multiple failed login attempts.",
       { s with users :=
          pre ++ { u with failedLoginAttempts := u.failedLoginAttempts + 1,
                          status := "Locked", updatedAt := now } :: post },
       none⟩ := by
  have hfind := getUserByUsername_decomp s uname pre post u hs hname hpreU
  unfold login
  rw [hfind]
  dsimp only
  rw [if_neg (by simp [hnl]), if_pos (by simp [hwrong])]
  rw [updateUser_found s true u.id pre post u _ now hs rfl hpreI]
  dsimp only [setItem]
  rw [updateUser_found _ true u.id pre post
    (applyUserUpdates u { failedLoginAttempts := some (u.failedLoginAttempts + 1) } now)
    { status := some "Locked" } now rfl rfl hpreI]
  dsimp only [applyUserUpdates, Option.getD, setItem]
  rw [if_pos hbig]
  simp

theorem login_correct (s : Storage) (pre post : List User) (u : User)
    (uname pw : String) (now : Nat)
    (hs : s.users = pre ++ u :: post)
    (hname : u.username = uname)
    (hpw : u.password = pw)
    (hpreU : ∀ x ∈ pre, x.username ≠ uname)
    (hpreI : ∀ x ∈ pre, x.id ≠ u.id)
    (hnl : u.status ≠ "Locked") :
    login s uname pw now =
      ⟨true, none,
       { s with
          users := pre ++ { u with lastLogin := some now, failedLoginAttempts := 0,
                                   updatedAt := now } :: post,
          currentUser := some { u with lastLogin := some now,
                                       failedLoginAttempts := 0, updatedAt := now } },
       some { u with lastLogin := some now, failedLoginAttempts := 0,
                     updatedAt := now }⟩ := by
  have hfind := getUserByUsername_decomp s uname pre post u hs hname hpreU
  unfold login
  rw [hfind]
  dsimp only
  rw [if_neg (by simp [hnl]), if_neg (by simp [hpw])]
  rw [updateUser_found s true u.id pre post u _ now hs rfl hpreI]
  dsimp only [applyUserUpdates, Option.getD, setItem, setCurrentUser]
  simp

/-- Analogue of `updateUser_found` for `updateTerminal`. -/
theorem updateTerminal_found (s : Storage) (ok : Bool) (id : String)
    (pre post : List Terminal) (t : Terminal) (p : PartialTerminal) (now : Nat)
    (hs : s.terminals = pre ++ t :: post)
    (hid : t.id = id)
    (hpre : ∀ x ∈ pre, x.id ≠ id) :
    updateTerminal s ok id p now =
      (some (applyTerminalUpdates t p now),
       { s with terminals :=
          setItem ok s.terminals (pre ++ applyTerminalUpdates t p now :: post) }) := by
  have hidx : findIndex (fun x => x.id == id) (getTerminals s) = some pre.length := by
    unfold getTerminals
    rw [hs]
    exact findIndex_append_cons _ _ _ _
      (fun x hx => by simpa using hpre x hx) (by simp [hid])
  unfold updateTerminal
  simp only []
  rw [hidx]
  simp only [getTerminals, hs, getD_append_cons, set_append_cons]

/-- Analogue of `updateUser_found` for `updateTicket`. -/
theorem updateTicket_found (s : Storage) (ok : Bool) (id : String)
    (pre post : List SupportTicket) (tk : SupportTicket) (p : PartialTicket)
    (now : Nat)
    (hs : s.tickets = pre ++ tk :: post)
    (hid : tk.id = id)
    (hpre : ∀ x ∈ pre, x.id ≠ id) :
    updateTicket s ok id p now =
      (some (applyTicketUpdates tk p now),
       { s with tickets :=
          setItem ok s.tickets (pre ++ applyTicketUpdates tk p now :: post) }) := by
  have hidx : findIndex (fun x => x.id == id) (getTickets s) = some pre.length := by
    unfold getTickets
    rw [hs]
    exact findIndex_append_cons _ _ _ _
      (fun x hx => by simpa using hpre x hx) (by simp [hid])
  unfold updateTicket
  simp only []
  rw [hidx]
  simp only [getTickets, hs, getD_append_cons, set_append_cons]

/-! ## The claims -/


/-- Claim C1 (lockout): a stored Active user with `failedLoginAttempts = 0` is
taken to `status = Locked`, `failedLoginAttempts = 3` by three consecutive
wrong-password login calls, each of which fails; a fourth call with the
correct password also fails and leaves the whole store unchanged. -/
theorem lockout_after_three_wrong_attempts (s : Storage) (pre post : List User)
    (u : User) (wrongpw : String) (n1 n2 n3 n4 : Nat)
    (hs : s.users = pre ++ u :: post)
    (hpre : ∀ x ∈ pre, x.username ≠ u.username ∧ x.id ≠ u.id)
    (hactive : u.status = "Active")
    (hfail : u.failedLoginAttempts = 0)
    (hwrong : u.password ≠ wrongpw) :
    let r1 := login s u.username wrongpw n1
    let r2 := login r1.store u.username wrongpw n2
    let r3 := login r2.store u.username wrongpw n3
    let r4 := login r3.store u.username u.password n4
    r1.success = false ∧ r2.success = false ∧ r3.success = false ∧
    (∃ w, r3.store.users = pre ++ w :: post ∧ w.id = u.id ∧
       w.username = u.username ∧ w.status = "Locked" ∧
       w.failedLoginAttempts = 3) ∧
    r4.success = false ∧ r4.store = r3.store := by
  have hpreU : ∀ x ∈ pre, x.username ≠ u.username := fun x hx => (hpre x hx).1
  have hpreI : ∀ x ∈ pre, x.id ≠ u.id := fun x hx => (hpre x hx).2
  have hnl : u.status ≠ "Locked" := by rw [hactive]; decide
  have h1 := login_wrong_below_lock s pre post u u.username wrongpw n1 hs rfl
    hpreU hpreI hnl hwrong (by omega)
  have h2 := login_wrong_below_lock
    { s with users := pre ++
        { u with failedLoginAttempts := u.failedLoginAttempts + 1,
                 updatedAt := n1 } :: post }
    pre post
    { u with failedLoginAttempts := u.failedLoginAttempts + 1, updatedAt := n1 }
    u.username wrongpw n2 rfl rfl hpreU hpreI hnl hwrong
    (by show u.failedLoginAttempts + 1 + 1 < 3; omega)
  have h3 := login_wrong_locks
    { s with users := pre ++
        { u with failedLoginAttempts := u.failedLoginAttempts + 1 + 1,
                 updatedAt := n2 } :: post }
    pre post
    { u with failedLoginAttempts := u.failedLoginAttempts + 1 + 1,
             updatedAt := n2 }
    u.username wrongpw n3 rfl rfl hpreU hpreI hnl hwrong
    (by show u.failedLoginAttempts + 1 + 1 + 1 ≥ 3; omega)
  have h4 := login_locked
    { s with users := pre ++
        { u with failedLoginAttempts := u.failedLoginAttempts + 1 + 1 + 1,
                 status := "Locked", updatedAt := n3 } :: post }
    u.username u.password
    { u with failedLoginAttempts := u.failedLoginAttempts + 1 + 1 + 1,
             status := "Locked", updatedAt := n3 }
    n4
    (getUserByUsername_decomp _ _ pre post _ rfl rfl hpreU)
    rfl
  dsimp only
  rw [h1]
  dsimp only
  rw [h2]
  dsimp only
  rw [h3]
  dsimp only
  rw [h4]
  refine ⟨rfl, rfl, rfl, ?_, rfl, rfl⟩
  exact ⟨_, rfl, rfl, rfl, rfl, by rw [hfail]⟩

/-- Claim C5 (reset on success): a stored Active user with
`failedLoginAttempts = 2` who logs in with the correct password succeeds; the
stored record ends with `failedLoginAttempts = 0`, `lastLogin` equal to the
call time, and that updated record becomes the current session (both the
persisted slot and the in-memory state). -/
theorem reset_on_successful_login (s : Storage) (pre post : List User)
    (u : User) (pw : String) (now : Nat)
    (hs : s.users = pre ++ u :: post)
    (hpre : ∀ x ∈ pre, x.username ≠ u.username ∧ x.id ≠ u.id)
    (hactive : u.status = "Active")
    ( _hfail : u.failedLoginAttempts = 2)
    (hpw : u.password = pw) :
    let r := login s u.username pw now
    r.success = true ∧
    r.store.users = pre ++
      { u with lastLogin := some now, failedLoginAttempts := 0,
               updatedAt := now } :: post ∧
    r.store.currentUser = some
      { u with lastLogin := some now, failedLoginAttempts := 0,
               updatedAt := now } ∧
    r.session = some
      { u with lastLogin := some now, failedLoginAttempts := 0,
               updatedAt := now } := by
  have h := login_correct s pre post u u.username pw now hs rfl hpw
    (fun x hx => (hpre x hx).1) (fun x hx => (hpre x hx).2)
    (by rw [hactive]; decide)
  dsimp only
  rw [h]
  exact ⟨rfl, rfl, rfl, rfl⟩

/-- Claim C3 (permission table): `hasPermission "manage_users"` is true exactly
when the role of the current user is Administrator or Service Desk Manager (so
false for Support Agent and Merchant), and every permission check without a
current user is false. -/
theorem manage_users_permission_table :
    (∀ u : User, hasPermission (some u) "manage_users" =
       (u.role == "Administrator" || u.role == "Service Desk Manager")) ∧
    (∀ p : String, hasPermission none p = false) := by
  refine ⟨fun u => ?_, fun p => rfl⟩
  unfold hasPermission ROLE_PERMISSIONS
  by_cases hA : u.role = "Administrator"
  · simp [hA]
  · by_cases hS : u.role = "Service Desk Manager"
    · simp [hS, hA]
    · by_cases hG : u.role = "Support Agent"
      · simp [hG, hA, hS]
      · by_cases hM : u.role = "Merchant"
        · simp [hM, hA, hS, hG]
        · simp [hA, hS, hG, hM]

/-- Claim C2 (Merchant scoping): for a Merchant current user whose record is in
the stored users collection, the accessible terminals are exactly the stored
terminals whose id lies in the `assignedTerminals` of the user, and the accessible
tickets exactly the stored tickets whose `terminalId` lies there. -/
theorem merchant_scoping (sess : User) (s : Storage)
    (hrole : sess.role = "Merchant")
    (hmem : getUserById s sess.id = some sess) :
    getAccessibleTerminals (some sess) s =
      (getTerminals s).filter
        (fun t => (sess.assignedTerminals.getD []).contains t.id) ∧
    getAccessibleTickets (some sess) s =
      (getTickets s).filter
        (fun tk => (sess.assignedTerminals.getD []).contains tk.terminalId) ∧
    (∀ t, t ∈ getAccessibleTerminals (some sess) s ↔
       t ∈ s.terminals ∧ t.id ∈ sess.assignedTerminals.getD []) ∧
    (∀ tk, tk ∈ getAccessibleTickets (some sess) s ↔
       tk ∈ s.tickets ∧ tk.terminalId ∈ sess.assignedTerminals.getD []) := by
  have hterm : getAccessibleTerminals (some sess) s =
      (getTerminals s).filter
        (fun t => (sess.assignedTerminals.getD []).contains t.id) := by
    unfold getAccessibleTerminals getTerminalsByUser
    dsimp only
    rw [hmem]
    simp [hrole]
  have htick : getAccessibleTickets (some sess) s =
      (getTickets s).filter
        (fun tk => (sess.assignedTerminals.getD []).contains tk.terminalId) := by
    unfold getAccessibleTickets getTicketsByUser
    dsimp only
    rw [hmem]
    simp [hrole]
  refine ⟨hterm, htick, fun t => ?_, fun tk => ?_⟩
  · rw [hterm]
    simp [List.mem_filter, getTerminals]
  · rw [htick]
    simp [List.mem_filter, getTickets]

/-- Claim C9 (anonymous state): with no current user both accessors return the
empty sequence whatever the stored collections hold. -/
theorem anonymous_sees_nothing (s : Storage) :
    getAccessibleTerminals none s = [] ∧ getAccessibleTickets none s = [] :=
  ⟨rfl, rfl⟩

/-- Claim C10 (dangling session): when the id of the current session user matches no
stored user, `getAccessibleTickets` returns the empty sequence while
`getAccessibleTerminals` returns every stored terminal. -/
theorem dangling_session_divergence (sess : User) (s : Storage)
    (h : getUserById s sess.id = none) :
    getAccessibleTickets (some sess) s = [] ∧
    getAccessibleTerminals (some sess) s = getTerminals s := by
  constructor
  · unfold getAccessibleTickets getTicketsByUser
    dsimp only
    rw [h]
  · unfold getAccessibleTerminals getTerminalsByUser
    dsimp only
    by_cases hm : sess.role = "Merchant" <;> simp [hm, h]

/-- Claim C4, amended: for any current user whose role is not Merchant,
`getAccessibleTerminals` returns the whole stored terminals collection; and
provided the id of the current user resolves in the stored users collection to a
record whose role is not Merchant, `getAccessibleTickets` returns the whole
stored tickets collection. -/
theorem non_merchant_full_visibility (sess : User) (s : Storage)
    (hrole : sess.role ≠ "Merchant") :
    getAccessibleTerminals (some sess) s = getTerminals s ∧
    (∀ u, getUserById s sess.id = some u → u.role ≠ "Merchant" →
       getAccessibleTickets (some sess) s = getTickets s) := by
  constructor
  · unfold getAccessibleTerminals
    simp [hrole]
  · intro u hu hur
    unfold getAccessibleTickets getTicketsByUser
    dsimp only
    rw [hu]
    simp [hur]

/-- Claim C7 (empty-update frame): for every stored entity whose id is
present in its collection, `update(id, {})` with an empty field set — called
once, or twice in a row — changes only the `updatedAt` of that entity: every
other field, every other entity of the collection, the other collections and
the session slot keep their pre-call values. Stated for each of the three
entity types the store instantiates `update` for (users, terminals, tickets),
each part under its own hypotheses, so any single-entity instance applies
whatever the other collections hold. -/
theorem empty_update_touches_only_updatedAt (s : Storage) (n1 n2 : Nat) :
    (∀ (pre post : List User) (u : User),
      s.users = pre ++ u :: post → (∀ x ∈ pre, x.id ≠ u.id) →
      let s1 := (updateUser s true u.id {} n1).2
      let s2 := (updateUser s1 true u.id {} n2).2
      s1.users = pre ++ { u with updatedAt := n1 } :: post ∧
      s2.users = pre ++ { u with updatedAt := n2 } :: post ∧
      userEqExceptUpdatedAt { u with updatedAt := n1 } u ∧
      userEqExceptUpdatedAt { u with updatedAt := n2 } u ∧
      s1.terminals = s.terminals ∧ s1.tickets = s.tickets ∧
      s1.alerts = s.alerts ∧ s1.metrics = s.metrics ∧
      s1.currentUser = s.currentUser ∧
      s2.terminals = s.terminals ∧ s2.tickets = s.tickets ∧
      s2.alerts = s.alerts ∧ s2.metrics = s.metrics ∧
      s2.currentUser = s.currentUser) ∧
    (∀ (pre post : List Terminal) (t : Terminal),
      s.terminals = pre ++ t :: post → (∀ x ∈ pre, x.id ≠ t.id) →
      let s1 := (updateTerminal s true t.id {} n1).2
      let s2 := (updateTerminal s1 true t.id {} n2).2
      s1.terminals = pre ++ { t with updatedAt := n1 } :: post ∧
      s2.terminals = pre ++ { t with updatedAt := n2 } :: post ∧
      terminalEqExceptUpdatedAt { t with updatedAt := n1 } t ∧
      terminalEqExceptUpdatedAt { t with updatedAt := n2 } t ∧
      s1.users = s.users ∧ s1.tickets = s.tickets ∧
      s1.alerts = s.alerts ∧ s1.metrics = s.metrics ∧
      s1.currentUser = s.currentUser ∧
      s2.users = s.users ∧ s2.tickets = s.tickets ∧
      s2.alerts = s.alerts ∧ s2.metrics = s.metrics ∧
      s2.currentUser = s.currentUser) ∧
    (∀ (pre post : List SupportTicket) (tk : SupportTicket),
      s.tickets = pre ++ tk :: post → (∀ x ∈ pre, x.id ≠ tk.id) →
      let s1 := (updateTicket s true tk.id {} n1).2
      let s2 := (updateTicket s1 true tk.id {} n2).2
      s1.tickets = pre ++ { tk with updatedAt := n1 } :: post ∧
      s2.tickets = pre ++ { tk with updatedAt := n2 } :: post ∧
      ticketEqExceptUpdatedAt { tk with updatedAt := n1 } tk ∧
      ticketEqExceptUpdatedAt { tk with updatedAt := n2 } tk ∧
      s1.users = s.users ∧ s1.terminals = s.terminals ∧
      s1.alerts = s.alerts ∧ s1.metrics = s.metrics ∧
      s1.currentUser = s.currentUser ∧
      s2.users = s.users ∧ s2.terminals = s.terminals ∧
      s2.alerts = s.alerts ∧ s2.metrics = s.metrics ∧
      s2.currentUser = s.currentUser) := by
  refine ⟨fun pre post u hsU hpreU => ?_, fun pre post t hsT hpreT => ?_,
    fun pre post tk hsK hpreK => ?_⟩
  · have e1 : (updateUser s true u.id {} n1).2 =
        { s with users := pre ++ { u with updatedAt := n1 } :: post } := by
      rw [updateUser_found s true u.id pre post u {} n1 hsU rfl hpreU]
      simp [setItem, applyUserUpdates]
    have e2 : (updateUser (updateUser s true u.id {} n1).2 true u.id {} n2).2 =
        { s with users := pre ++ { u with updatedAt := n2 } :: post } := by
      rw [e1]
      rw [updateUser_found { s with users := pre ++ { u with updatedAt := n1 } :: post }
        true u.id pre post { u with updatedAt := n1 } {} n2 rfl rfl hpreU]
      simp [setItem, applyUserUpdates]
    dsimp only
    rw [e2, e1]
    exact ⟨rfl, rfl,
      ⟨rfl, rfl, rfl, rfl, rfl, rfl, rfl, rfl, rfl, rfl, rfl, rfl⟩,
      ⟨rfl, rfl, rfl, rfl, rfl, rfl, rfl, rfl, rfl, rfl, rfl, rfl⟩,
      rfl, rfl, rfl, rfl, rfl, rfl, rfl, rfl, rfl, rfl⟩
  · have f1 : (updateTerminal s true t.id {} n1).2 =
        { s with terminals := pre ++ { t with updatedAt := n1 } :: post } := by
      rw [updateTerminal_found s true t.id pre post t {} n1 hsT rfl hpreT]
      simp [setItem, applyTerminalUpdates]
    have f2 : (updateTerminal (updateTerminal s true t.id {} n1).2 true t.id {} n2).2 =
        { s with terminals := pre ++ { t with updatedAt := n2 } :: post } := by
      rw [f1]
      rw [updateTerminal_found
        { s with terminals := pre ++ { t with updatedAt := n1 } :: post }
        true t.id pre post { t with updatedAt := n1 } {} n2 rfl rfl hpreT]
      simp [setItem, applyTerminalUpdates]
    dsimp only
    rw [f2, f1]
    exact ⟨rfl, rfl,
      ⟨rfl, rfl, rfl, rfl, rfl, rfl, rfl, rfl, rfl, rfl, rfl, rfl, rfl, rfl, rfl, rfl⟩,
      ⟨rfl, rfl, rfl, rfl, rfl, rfl, rfl, rfl, rfl, rfl, rfl, rfl, rfl, rfl, rfl, rfl⟩,
      rfl, rfl, rfl, rfl, rfl, rfl, rfl, rfl, rfl, rfl⟩
  · have g1 : (updateTicket s true tk.id {} n1).2 =
        { s with tickets := pre ++ { tk with updatedAt := n1 } :: post } := by
      rw [updateTicket_found s true tk.id pre post tk {} n1 hsK rfl hpreK]
      simp [setItem, applyTicketUpdates]
    have g2 : (updateTicket (updateTicket s true tk.id {} n1).2 true tk.id {} n2).2 =
        { s with tickets := pre ++ { tk with updatedAt := n2 } :: post } := by
      rw [g1]
      rw [updateTicket_found { s with tickets := pre ++ { tk with updatedAt := n1 } :: post }
        true tk.id pre post { tk with updatedAt := n1 } {} n2 rfl rfl hpreK]
      simp [setItem, applyTicketUpdates]
    dsimp only
    rw [g2, g1]
    exact ⟨rfl, rfl,
      ⟨rfl, rfl, rfl, rfl, rfl, rfl, rfl, rfl, rfl, rfl, rfl, rfl, rfl, rfl, rfl, rfl, rfl, rfl⟩,
      ⟨rfl, rfl, rfl, rfl, rfl, rfl, rfl, rfl, rfl, rfl, rfl, rfl, rfl, rfl, rfl, rfl, rfl, rfl⟩,
      rfl, rfl, rfl, rfl, rfl, rfl, rfl, rfl, rfl, rfl⟩

/-- The returned value of `updateTerminal` does not depend on whether
persistence succeeded. -/
theorem updateTerminal_value_indep (s : Storage) (id : String)
    (p : PartialTerminal) (now : Nat) :
    (updateTerminal s false id p now).1 = (updateTerminal s true id p now).1 := by
  unfold updateTerminal
  dsimp only
  cases findIndex (fun terminal => terminal.id == id) (getTerminals s) <;> rfl

/-- Claim C6 (persistence failure swallowed): every mutating record-store
operation returns, when its `setItem`/`removeItem` fails (the exception being
caught and logged inside the service), exactly the value it returns when
persistence succeeds; no operation can raise the failure to the caller (all
operations are total functions of the `ok` flag). -/
theorem persistence_failure_swallowed :
    (∀ s d now r, (createUser s false d now r).1 = (createUser s true d now r).1) ∧
    (∀ s id p now, (updateUser s false id p now).1 = (updateUser s true id p now).1) ∧
    (∀ s id, (deleteUser s false id).1 = (deleteUser s true id).1) ∧
    (∀ s u, (setCurrentUser s false u).1 = (setCurrentUser s true u).1) ∧
    (∀ s id p now, (updateTerminal s false id p now).1 = (updateTerminal s true id p now).1) ∧
    (∀ s id st now,
      (updateTerminalStatus s false id st now).1 = (updateTerminalStatus s true id st now).1) ∧
    (∀ s d now r, (createTicket s false d now r).1 = (createTicket s true d now r).1) ∧
    (∀ s id p now, (updateTicket s false id p now).1 = (updateTicket s true id p now).1) ∧
    (∀ s d now r, (createAlert s false d now r).1 = (createAlert s true d now r).1) := by
  refine ⟨fun s d now r => rfl, fun s id p now => ?_, fun s id => ?_,
    fun s u => ?_, fun s id p now => updateTerminal_value_indep s id p now,
    fun s id st now => ?_, fun s d now r => rfl, fun s id p now => ?_,
    fun s d now r => rfl⟩
  · unfold updateUser
    dsimp only
    cases findIndex (fun user => user.id == id) (getUsers s) <;> rfl
  · unfold deleteUser
    dsimp only
    split <;> rfl
  · cases u <;> rfl
  · unfold updateTerminalStatus
    dsimp only
    rw [updateTerminal_value_indep]
  · unfold updateTicket
    dsimp only
    cases findIndex (fun ticket => ticket.id == id) (getTickets s) <;> rfl

/-- Claim C8 (persisted layout): the keys the store ever reads (`getItem`) or
writes (`setItem`) are exactly the six claimed logical keys — the five
collections and the current-session singleton — which are pairwise distinct.
(The seventh declared key, `terminal_pulse_comments`, is only ever passed to
`removeItem` by `clearAllData`; it is never read, written or seeded.) -/
theorem persisted_layout_six_keys :
    keysReadByStore = specPersistedKeys ∧
    keysWrittenByStore = specPersistedKeys ∧
    specPersistedKeys.length = 6 ∧ specPersistedKeys.Nodup := by
  refine ⟨rfl, rfl, rfl, by decide⟩

/-- Witness for the lockout theorem at the sample administrator. -/
theorem lockout_witness :
    (wAdmin.status = "Active" ∧ wAdmin.failedLoginAttempts = 0 ∧
     wAdmin.password ≠ "wrong-password") ∧
    (let r1 := login wStore wAdmin.username "wrong-password" 1
     let r2 := login r1.store wAdmin.username "wrong-password" 2
     let r3 := login r2.store wAdmin.username "wrong-password" 3
     let r4 := login r3.store wAdmin.username wAdmin.password 4
     r1.success = false ∧ r2.success = false ∧ r3.success = false ∧
     (∃ w, r3.store.users = [] ++ w :: [wSupport, wMerchant] ∧
        w.id = wAdmin.id ∧ w.username = wAdmin.username ∧
        w.status = "Locked" ∧ w.failedLoginAttempts = 3) ∧
     r4.success = false ∧ r4.store = r3.store) :=
  ⟨⟨rfl, rfl, by decide⟩,
   lockout_after_three_wrong_attempts wStore [] [wSupport, wMerchant] wAdmin
     "wrong-password" 1 2 3 4 rfl (by simp) rfl rfl (by decide)⟩

/-- Witness for the reset-on-success theorem at the sample support agent. -/
theorem reset_witness :
    (wSupport.status = "Active" ∧ wSupport.failedLoginAttempts = 2 ∧
     wSupport.password = "support123") ∧
    (let r := login wStore wSupport.username "support123" 7
     r.success = true ∧
     r.store.users = [wAdmin] ++
       { wSupport with lastLogin := some 7, failedLoginAttempts := 0,
                       updatedAt := 7 } :: [wMerchant] ∧
     r.store.currentUser = some
       { wSupport with lastLogin := some 7, failedLoginAttempts := 0,
                       updatedAt := 7 } ∧
     r.session = some
       { wSupport with lastLogin := some 7, failedLoginAttempts := 0,
                       updatedAt := 7 }) :=
  ⟨⟨rfl, rfl, rfl⟩,
   reset_on_successful_login wStore [wAdmin] [wMerchant] wSupport "support123" 7
     rfl (by decide) rfl rfl rfl⟩

/-- Witness for the Merchant-scoping theorem: with five stored terminals the
merchant assigned T001 sees exactly the T001 terminal, and only the tickets
of T001. -/
theorem merchant_scoping_witness :
    (wMerchant.role = "Merchant" ∧
     getUserById wStore wMerchant.id = some wMerchant) ∧
    getAccessibleTerminals (some wMerchant) wStore =
      (getTerminals wStore).filter
        (fun t => (wMerchant.assignedTerminals.getD []).contains t.id) ∧
    getAccessibleTerminals (some wMerchant) wStore =
      [wTerminal "T001" "Harare CBD"] ∧
    getAccessibleTickets (some wMerchant) wStore =
      [wTicket "TKT-2025-001" "T001"] :=
  ⟨⟨rfl, by decide⟩,
   (merchant_scoping wMerchant wStore rfl (by decide)).1,
   by decide, by decide⟩

/-- Counterexample to claim C4 as stated: a non-Merchant current user whose id resolves to no
stored record (deleted after login) gets the empty ticket list, not the whole
stored tickets collection — so the claim fails as universally stated. -/
theorem non_merchant_full_visibility_counterexample :
    wGhost.role ≠ "Merchant" ∧
    getTickets wStore ≠ [] ∧
    getAccessibleTickets (some wGhost) wStore ≠ getTickets wStore := by decide

/-- Witness for the amended non-Merchant visibility theorem at the sample
administrator, who is present in the stored users collection. -/
theorem non_merchant_witness :
    wAdmin.role ≠ "Merchant" ∧
    getAccessibleTerminals (some wAdmin) wStore = getTerminals wStore ∧
    getAccessibleTickets (some wAdmin) wStore = getTickets wStore :=
  ⟨by decide,
   (non_merchant_full_visibility wAdmin wStore (by decide)).1,
   (non_merchant_full_visibility wAdmin wStore (by decide)).2 wAdmin
     (by decide) (by decide)⟩

/-- Witness for the empty-update frame theorem: one instance per entity type
(the sample support user, terminal T001 and ticket TKT-2025-001 in the sample
store), plus a user update in a store whose terminals and tickets collections
are empty. -/
theorem empty_update_witness :
    wAdmin.id ≠ wSupport.id ∧
    (updateUser wStore true wSupport.id {} 5).2.users =
      [wAdmin] ++ { wSupport with updatedAt := 5 } :: [wMerchant] ∧
    (updateTerminal wStore true "T001" {} 5).2.tickets = wStore.tickets ∧
    (updateTicket wStore true "TKT-2025-001" {} 5).2.tickets =
      [] ++ { wTicket "TKT-2025-001" "T001" with updatedAt := 5 } ::
        [wTicket "TKT-2025-002" "T003"] ∧
    (updateUser wBareStore true wSupport.id {} 5).2.users =
      [wAdmin] ++ { wSupport with updatedAt := 5 } :: [wMerchant] :=
  ⟨by decide,
   ((empty_update_touches_only_updatedAt wStore 5 6).1 [wAdmin] [wMerchant]
      wSupport rfl (by decide)).1,
   ((empty_update_touches_only_updatedAt wStore 5 6).2.1 []
      [wTerminal "T002" "Bulawayo City", wTerminal "T003" "Mutare Center",
       wTerminal "T004" "Gweru Main", wTerminal "T005" "Masvingo Plaza"]
      (wTerminal "T001" "Harare CBD") rfl (by simp)).2.2.2.2.2.1,
   ((empty_update_touches_only_updatedAt wStore 5 6).2.2 []
      [wTicket "TKT-2025-002" "T003"] (wTicket "TKT-2025-001" "T001") rfl
      (by simp)).1,
   ((empty_update_touches_only_updatedAt wBareStore 5 6).1 [wAdmin] [wMerchant]
      wSupport rfl (by decide)).1⟩

/-- Witness for the dangling-session divergence theorem. -/
theorem dangling_witness :
    getUserById wStore wGhost.id = none ∧
    getAccessibleTickets (some wGhost) wStore = [] ∧
    getAccessibleTerminals (some wGhost) wStore = getTerminals wStore :=
  ⟨by decide,
   (dangling_session_divergence wGhost wStore (by decide)).1,
   (dangling_session_divergence wGhost wStore (by decide)).2⟩

end TerminalPulse
